import Mathlib

/-!
# Vehicle-Detection front end (`static/script.js`): job lifecycle

A shallow embedding of the browser script that drives one video-processing
job: file validation, upload and process-start requests, the WebSocket
message handler, the progress display, the result links and the reset.

Conventions of the embedding.

* The script's global variables and the DOM properties it writes are fields of
  `AppState`.  An element's `hidden` class is a `Bool` field (`true` = hidden).
* Calls that leave the page (toast notifications, `alert`, `fetch`,
  `window.open`, a click on a download link, `new WebSocket`) are appended, in
  program order, to the `effects` log; `setTimeout` appends to `timers`.
* An `async` function is split at its `await` points; what the server answers
  is an argument of the continuation.
* JavaScript strings are `String`; numbers that the schema declares as
  non-negative integers are `Nat`.  The stroke offset is the exact rational
  value of the source expression (IEEE rounding is not modelled).
* `console.log` and `console.error` calls have no effect on the state and are
  left out.  The statements of `resetApp` that touch the file input (line 312)
  and the `<video>` element (lines 323-327, the last of the function) act on
  properties no other function reads and are left out as well.
* The elements that the script looks up by id (panels, text nodes, the file
  input) exist in the page.  Whether the `<video>` element of lines 323-327
  exists does not matter, these being the last statements of `resetApp`.
-/

namespace VehicleDetection

/-! ## Data model -/

/-- The three properties of a browser `File` that the script reads. -/
structure File where
  type : String
  name : String
  size : Nat
  deriving DecidableEq, Repr

/-- The two functions that the script hands to `setTimeout`. -/
inductive Callback where
  | connectWebSocket
  | hideToast
  deriving DecidableEq, Repr

/-- A pending `setTimeout(callback, delay)`. -/
structure Timer where
  callback : Callback
  delay : Nat
  deriving DecidableEq, Repr

/-- An externally visible action of the script. -/
inductive Effect where
  | toast (message : String) (type : String)
  | alert (message : String)
  | fetch (method : String) (url : String)
  | windowOpen (url : String) (target : String)
  | linkClick (href : String) (download : String)
  | webSocket (url : String)
  deriving DecidableEq, Repr

/-- A decoded WebSocket message, `JSON.parse(event.data)`; `none` is a key that
is absent (`undefined`). -/
structure ChannelEvent where
  progress : Option Nat
  processed_frames : Option Nat
  total_frames : Option Nat
  output_file : Option String
  error : Option String
  deriving DecidableEq, Repr

/-- What an awaited `fetch(...)` followed by `response.json()` yields:
either the promise rejects with an `Error` of the given message, or there is a
response with its `ok` flag and the `filename` and `detail` keys of its JSON
body. -/
inductive FetchOutcome where
  | rejected (message : String)
  | responded (ok : Bool) (filename : Option String) (detail : Option String)
  deriving DecidableEq, Repr

/-- Globals of the script, the DOM properties it writes, pending timers and the
log of effects. -/
structure AppState where
  selectedFile : Option File
  processInterval : Option Nat
  outputFilename : Option String
  ws : Option Nat
  socketsCreated : Nat
  locationProtocol : String
  locationHost : String
  welcomeScreenHidden : Bool
  uploadSectionHidden : Bool
  uploadAreaHidden : Bool
  uploadAreaDragOver : Bool
  fileInfoHidden : Bool
  progressCardHidden : Bool
  resultsSectionHidden : Bool
  fileName : String
  systemStatus : String
  strokeDashoffset : ℚ
  progressPercent : String
  progressStatus : String
  toastMessage : String
  toastClassName : String
  toastHidden : Bool
  timers : List Timer
  effects : List Effect
  deriving DecidableEq

/-! ## JavaScript helpers -/

/-- Truthiness of a string-valued property: absent and `""` are falsy. -/
def truthy : Option String → Bool
  | none => false
  | some v => v ≠ ""

/-- Truthiness of a number-valued variable: `null` and `0` are falsy. -/
def truthyNumber : Option Nat → Bool
  | none => false
  | some n => n ≠ 0

/-- The value of `a || b` for a string-valued property `a`. -/
def orElse (a : Option String) (b : String) : String :=
  match a with
  | none => b
  | some v => if v ≠ "" then v else b

/-- Template-literal rendering of a string-valued property; an absent key
renders as `undefined`. -/
def render : Option String → String
  | none => "undefined"
  | some v => v

/-- The list version of `String.prototype.replace` with a string pattern: only the
first occurrence of `pat`, scanning from the left, is replaced. -/
def replaceFirst (pat rep : List Char) : List Char → List Char
  | [] => if pat = [] then rep else []
  | c :: cs =>
    if pat.isPrefixOf (c :: cs) then rep ++ (c :: cs).drop pat.length
    else c :: replaceFirst pat rep cs

/-- The call `str.replace(pat, rep)` for string `pat`, `rep` (no `$` in `rep`). -/
def replace (str pat rep : String) : String :=
  String.mk (replaceFirst pat.toList rep.toList str.toList)

/-- The test `name.match(/\.(mp4|avi|mov)$/i)`: the name ends in one of the three
extensions, letters compared without regard to (ASCII) case.  The pattern has
no `u` flag and no `m` flag, so only ASCII letters fold and `$` is the end of
the string. -/
def extensionMatches (name : String) : Bool :=
  let lower := name.toList.map Char.toLower
  [".mp4", ".avi", ".mov"].any (fun ext => ext.toList.isSuffixOf lower)

/-! ## Toast notifications and timers -/

/-- The function `showToast(message, type)`. -/
def showToast (s : AppState) (message : String) (type : String) : AppState :=
  { s with
    toastMessage := message
    toastClassName := "toast " ++ type
    toastHidden := false
    timers := s.timers ++ [⟨Callback.hideToast, 4000⟩]
    effects := s.effects ++ [Effect.toast message type] }

/-! ## WebSocket connection -/

/-- The body of `connectWebSocket()`: a new socket replaces `ws`. -/
def connectWebSocket (s : AppState) : AppState :=
  let protocol := if s.locationProtocol = "https:" then "wss:" else "ws:"
  let wsUrl := protocol ++ "//" ++ s.locationHost ++ "/ws"
  { s with
    ws := some s.socketsCreated
    socketsCreated := s.socketsCreated + 1
    effects := s.effects ++ [Effect.webSocket wsUrl] }

/-- The handler `ws.onopen`: logs only. -/
def onopen (s : AppState) : AppState := s

/-- The handler `ws.onerror`: logs only. -/
def onerror (s : AppState) : AppState := s

/-- The handler `ws.onclose`: `setTimeout(connectWebSocket, 3000)`. -/
def onclose (s : AppState) : AppState :=
  { s with timers := s.timers ++ [⟨Callback.connectWebSocket, 3000⟩] }

/-- Runs the callback of an expired timer. -/
def runCallback (s : AppState) : Callback → AppState
  | Callback.connectWebSocket => connectWebSocket s
  | Callback.hideToast => { s with toastHidden := true }

/-- The `i`-th pending timer expires: it leaves the queue and its callback runs. -/
def fireTimer (s : AppState) (i : Nat) : AppState :=
  match s.timers[i]? with
  | none => s
  | some t => runCallback { s with timers := s.timers.eraseIdx i } t.callback

/-! ## File selection -/

/-- The function `validateFile(file)`: the returned flag and the state after it. -/
def validateFile (s : AppState) (file : File) : Bool × AppState :=
  let validTypes := ["video/mp4", "video/avi", "video/quicktime"]
  let maxSize := 500 * 1024 * 1024
  if !validTypes.contains file.type && !extensionMatches file.name then
    (false, showToast s "Invalid file type. Please upload MP4, AVI, or MOV file." "error")
  else if file.size > maxSize then
    (false, showToast s "File size too large. Maximum size is 500MB." "error")
  else
    (true, s)

/-- The function `displayFileInfo(file)`; the size text, computed with
floating-point logarithms, is not modelled. -/
def displayFileInfo (s : AppState) (file : File) : AppState :=
  { s with uploadAreaHidden := true, fileInfoHidden := false, fileName := file.name }

/-- The function `handleFileSelect(event)`, `files` being `event.target.files`. -/
def handleFileSelect (s : AppState) (files : List File) : AppState :=
  match files with
  | [] => s
  | file :: _ =>
    let r := validateFile s file
    if r.1 then displayFileInfo { r.2 with selectedFile := some file } file else r.2

/-- The function `handleDrop(e)` preceded by the `drop` listener that clears the
drag highlight; `files` is `e.dataTransfer.files`. -/
def handleDrop (s : AppState) (files : List File) : AppState :=
  let s := { s with uploadAreaDragOver := false }
  match files with
  | [] => s
  | file :: _ =>
    let r := validateFile s file
    if r.1 then displayFileInfo { r.2 with selectedFile := some file } file else r.2

/-- The function `showUploadSection()`. -/
def showUploadSection (s : AppState) : AppState :=
  { s with welcomeScreenHidden := true, uploadSectionHidden := false }

/-! ## Progress, results, reset -/

/-- The ring circumference used by `updateProgress`. -/
def circumference : ℚ := 534.07

/-- The function `updateProgress(percent, processedFrames = 0, totalFrames = 0)`. -/
def updateProgress (s : AppState) (percent : Nat)
    (processedFrames totalFrames : Option Nat) : AppState :=
  let processedFrames := processedFrames.getD 0
  let totalFrames := totalFrames.getD 0
  let offset := circumference - ((percent : ℚ) / 100) * circumference
  let s := { s with strokeDashoffset := offset, progressPercent := toString percent ++ "%" }
  if totalFrames > 0 then
    if percent < 30 then
      { s with progressStatus :=
          "Initializing... (" ++ toString processedFrames ++ "/" ++ toString totalFrames ++ " frames)" }
    else if percent < 70 then
      { s with progressStatus :=
          "Detecting vehicles... (" ++ toString processedFrames ++ "/" ++ toString totalFrames ++ " frames)" }
    else if percent < 95 then
      { s with progressStatus :=
          "Rendering video... (" ++ toString processedFrames ++ "/" ++ toString totalFrames ++ " frames)" }
    else
      { s with progressStatus :=
          "Finalizing... (" ++ toString processedFrames ++ "/" ++ toString totalFrames ++ " frames)" }
  else
    if percent < 30 then
      { s with progressStatus := "Initializing video processing..." }
    else if percent < 70 then
      { s with progressStatus := "Analyzing frames and detecting vehicles..." }
    else if percent < 95 then
      { s with progressStatus := "Rendering output video..." }
    else
      { s with progressStatus := "Finalizing..." }

/-- The function `showResults()`. -/
def showResults (s : AppState) : AppState :=
  showToast { s with progressCardHidden := true, resultsSectionHidden := false }
    "Video processing complete!" "success"

/-- The function `resetApp()`, up to the reset of the progress display (lines
304-320). -/
def resetApp (s : AppState) : AppState :=
  { s with
    selectedFile := none
    outputFilename := none
    processInterval := if truthyNumber s.processInterval then none else s.processInterval
    uploadAreaHidden := false
    fileInfoHidden := true
    progressCardHidden := true
    resultsSectionHidden := true
    strokeDashoffset := 534.07
    progressPercent := "0%" }

/-- First statement of `ws.onmessage` (lines 28-30): the progress update. -/
def handleProgress (s : AppState) (data : ChannelEvent) : AppState :=
  match data.progress with
  | some percent => updateProgress s percent data.processed_frames data.total_frames
  | none => s

/-- Second statement of `ws.onmessage` (lines 32-36): the output file. -/
def handleOutputFile (s : AppState) (data : ChannelEvent) : AppState :=
  if truthy data.output_file then
    showResults { s with outputFilename := data.output_file }
  else s

/-- Third statement of `ws.onmessage` (lines 38-41): the error. -/
def handleError (s : AppState) (data : ChannelEvent) : AppState :=
  if truthy data.error then
    resetApp (showToast s ("Processing error: " ++ render data.error) "error")
  else s

/-- The handler `ws.onmessage`, applied to the decoded message: its three
statements in sequence. -/
def onmessage (s : AppState) (data : ChannelEvent) : AppState :=
  handleError (handleOutputFile (handleProgress s data) data) data

/-! ## Upload and process start -/

/-- The part of `processVideo` after `await fetch('/api/process/...')`. -/
def processResponded (s : AppState) (process : FetchOutcome) : AppState :=
  match process with
  | FetchOutcome.rejected message => showToast s message "error"
  | FetchOutcome.responded ok _ detail =>
    if !ok then showToast s (orElse detail "Processing failed") "error"
    else { s with fileInfoHidden := true, progressCardHidden := false }

/-- The part of `processVideo` between the answer to the upload and the next
`await`: on success the process-start request is sent; the flag tells whether
the function is still running. -/
def uploadResponded (s : AppState) (upload : FetchOutcome) : Bool × AppState :=
  match upload with
  | FetchOutcome.rejected message => (false, showToast s message "error")
  | FetchOutcome.responded ok filename detail =>
    if !ok then (false, showToast s (orElse detail "Upload failed") "error")
    else
      (true, { s with effects := s.effects ++ [Effect.fetch "POST" ("/api/process/" ++ render filename)] })

/-- The part of `processVideo` up to the first `await`; the flag tells whether
the function is still running. -/
def processVideoBegin (s : AppState) : Bool × AppState :=
  match s.selectedFile with
  | none => (false, showToast s "Please select a video file first" "error")
  | some _ =>
    let s := showToast s "Uploading video..." "success"
    (true, { s with effects := s.effects ++ [Effect.fetch "POST" "/api/upload"] })

/-- A run of `processVideo()` with nothing else interleaved: `upload` and
`process` are what the two requests yield. -/
def processVideo (s : AppState) (upload process : FetchOutcome) : AppState :=
  let b := processVideoBegin s
  if b.1 then
    let u := uploadResponded b.2 upload
    if u.1 then processResponded u.2 process else u.2
  else b.2

/-! ## Result links -/

/-- The function `openVideoInNewTab()`; `popupAllowed` tells whether
`window.open` returns a window. -/
def openVideoInNewTab (s : AppState) (popupAllowed : Bool) : AppState :=
  if !truthy s.outputFilename then
    { s with effects := s.effects ++ [Effect.alert "No video available. Please process a video first."] }
  else
    let aviFilename := replace (render s.outputFilename) ".mp4" ".avi"
    let videoUrl := "/outputs/" ++ aviFilename
    let s := { s with effects := s.effects ++ [Effect.windowOpen videoUrl "_blank"] }
    if popupAllowed then showToast s "Opening video in new tab" "success"
    else { s with effects := s.effects ++ [Effect.alert "Pop-ups blocked! Please allow pop-ups and try again."] }

/-- The function `downloadVideo()`. -/
def downloadVideo (s : AppState) : AppState :=
  if !truthy s.outputFilename then
    { s with effects := s.effects ++ [Effect.alert "No video available. Please process a video first."] }
  else
    let aviFilename := replace (render s.outputFilename) ".mp4" ".avi"
    let s := { s with effects := s.effects ++ [Effect.linkClick ("/outputs/" ++ aviFilename) aviFilename] }
    showToast s "Download started" "success"

/-! ## Health check -/

/-- The part of `checkSystemHealth` after the awaited request: `none` is a failed
request; otherwise the `status` and `model_loaded` keys of the body. -/
def healthResponded (s : AppState) (health : Option (String × Bool)) : AppState :=
  match health with
  | none => showToast s "Error connecting to server" "error"
  | some (status, model_loaded) =>
    if status = "healthy" && model_loaded then { s with systemStatus := "System Ready" }
    else
      showToast { s with systemStatus := "Model Not Loaded" }
        "Warning: YOLO model not loaded. Please check model path." "warning"

/-! ## Page start and the events of a session -/

/-- Modelled from the spec: the page markup (the HTML document that loads the
script) is not among the sources, so the DOM the script starts from is taken
from the spec: the job is created `Idle`, the panels are as `resetApp`
leaves them (upload area shown, file-info card, progress card and results panel
hidden), the progress display is at 0% with the ring at its full circumference,
no toast is visible.  The globals are initialised as in lines 2-5 of the
script.  `protocol` and `host` are `window.location.protocol` and
`window.location.host`. -/
def initialState (protocol host : String) : AppState :=
  { selectedFile := none
    processInterval := none
    outputFilename := none
    ws := none
    socketsCreated := 0
    locationProtocol := protocol
    locationHost := host
    welcomeScreenHidden := false
    uploadSectionHidden := true
    uploadAreaHidden := false
    uploadAreaDragOver := false
    fileInfoHidden := true
    progressCardHidden := true
    resultsSectionHidden := true
    fileName := ""
    systemStatus := ""
    strokeDashoffset := 534.07
    progressPercent := "0%"
    progressStatus := ""
    toastMessage := ""
    toastClassName := "toast"
    toastHidden := true
    timers := []
    effects := [] }

/-- The `DOMContentLoaded` listener: `checkSystemHealth()` sends its request,
`setupDragAndDrop()` registers listeners, `connectWebSocket()` opens the
channel. -/
def domContentLoaded (s : AppState) : AppState :=
  connectWebSocket { s with effects := s.effects ++ [Effect.fetch "GET" "/api/health"] }

/-- The state in which the page waits for events. -/
def startState (protocol host : String) : AppState :=
  domContentLoaded (initialState protocol host)

/-- Everything that can happen to the page after it has loaded: user actions,
answers of the server, WebSocket events, expiring timers. -/
inductive Op where
  | showUploadSection
  | dragEnter
  | dragLeave
  | handleFileSelect (files : List File)
  | handleDrop (files : List File)
  | processVideo (upload process : FetchOutcome)
  | processVideoBegin
  | uploadResponded (upload : FetchOutcome)
  | processResponded (process : FetchOutcome)
  | healthResponded (health : Option (String × Bool))
  | onopen
  | onmessage (data : ChannelEvent)
  | onerror
  | onclose
  | fireTimer (i : Nat)
  | openVideoInNewTab (popupAllowed : Bool)
  | downloadVideo
  | resetApp
  deriving DecidableEq

/-- The effect of one event on the state.  The continuations of `processVideo`
are events of their own, so that other events may fall between them. -/
def step (s : AppState) : Op → AppState
  | Op.showUploadSection => showUploadSection s
  | Op.dragEnter => { s with uploadAreaDragOver := true }
  | Op.dragLeave => { s with uploadAreaDragOver := false }
  | Op.handleFileSelect files => handleFileSelect s files
  | Op.handleDrop files => handleDrop s files
  | Op.processVideo upload process => processVideo s upload process
  | Op.processVideoBegin => (processVideoBegin s).2
  | Op.uploadResponded upload => (uploadResponded s upload).2
  | Op.processResponded process => processResponded s process
  | Op.healthResponded health => healthResponded s health
  | Op.onopen => onopen s
  | Op.onmessage data => onmessage s data
  | Op.onerror => onerror s
  | Op.onclose => onclose s
  | Op.fireTimer i => fireTimer s i
  | Op.openVideoInNewTab popupAllowed => openVideoInNewTab s popupAllowed
  | Op.downloadVideo => downloadVideo s
  | Op.resetApp => resetApp s

/-- The state after a sequence of events. -/
def run (s : AppState) (ops : List Op) : AppState :=
  ops.foldl step s

/-- The two result actions are buttons of the results panel: they can be
triggered only while that panel is shown.  Every other event is always
possible. -/
def enabled (s : AppState) : Op → Bool
  | Op.openVideoInNewTab _ => !s.resultsSectionHidden
  | Op.downloadVideo => !s.resultsSectionHidden
  | _ => true

/-- Every event of the sequence is possible in the state in which it happens. -/
def admissible (s : AppState) : List Op → Bool
  | [] => true
  | op :: ops => enabled s op && admissible (step s op) ops

/-- The part of the state that describes the job: the globals, which panel is
shown, and the progress display. -/
structure JobState where
  selectedFile : Option File
  outputFilename : Option String
  processInterval : Option Nat
  uploadAreaHidden : Bool
  fileInfoHidden : Bool
  progressCardHidden : Bool
  resultsSectionHidden : Bool
  fileName : String
  strokeDashoffset : ℚ
  progressPercent : String
  progressStatus : String
  deriving DecidableEq

/-- The job part of a state. -/
def jobState (s : AppState) : JobState :=
  { selectedFile := s.selectedFile
    outputFilename := s.outputFilename
    processInterval := s.processInterval
    uploadAreaHidden := s.uploadAreaHidden
    fileInfoHidden := s.fileInfoHidden
    progressCardHidden := s.progressCardHidden
    resultsSectionHidden := s.resultsSectionHidden
    fileName := s.fileName
    strokeDashoffset := s.strokeDashoffset
    progressPercent := s.progressPercent
    progressStatus := s.progressStatus }

/-- Number of scheduled reconnects that have not fired yet. -/
def pendingReconnects (s : AppState) : Nat :=
  s.timers.countP (fun t => t.callback = Callback.connectWebSocket)

/-- Number of close events in a sequence of events. -/
def closes (ops : List Op) : Nat :=
  ops.countP (fun op => op = Op.onclose)

/-- The alert of the branch of the result actions taken when there is no
output file. -/
def noVideoAlert : Effect :=
  Effect.alert "No video available. Please process a video first."

/-! ## Spec-side vocabulary -/

/-- Spec wording: the declared media type is one of the three accepted types. -/
def declaredTypeValid (file : File) : Prop :=
  file.type = "video/mp4" ∨ file.type = "video/avi" ∨ file.type = "video/quicktime"

instance (file : File) : Decidable (declaredTypeValid file) := by
  unfold declaredTypeValid
  infer_instance

/-- Spec wording: `name` ends in `ext`, compared case-insensitively: the name is
a stem followed by a tail whose lower-cased characters are those of `ext`. -/
def endsInIgnoringCase (name ext : String) : Prop :=
  ∃ stem tail : String, name = stem ++ tail ∧ tail.toList.map Char.toLower = ext.toList

/-- Spec wording: the file name ends in `.mp4`, `.avi` or `.mov`. -/
def extensionValid (file : File) : Prop :=
  endsInIgnoringCase file.name ".mp4" ∨ endsInIgnoringCase file.name ".avi" ∨
    endsInIgnoringCase file.name ".mov"

/-! ## Sample inputs and invariants -/

/-- A sample state: the page right after loading from `http://localhost:8000`. -/
def sampleStart : AppState := startState "http:" "localhost:8000"

/-- A text file: wrong by declared type and by extension. -/
def sampleWrongType : File := ⟨"text/plain", "notes.txt", 10⟩

/-- A file with an unhelpful declared type, an upper-case extension and a size
of exactly 500 MiB. -/
def sampleMislabelled : File := ⟨"application/octet-stream", "CLIP.MOV", 524288000⟩

/-- A video one byte above 500 MiB. -/
def sampleTooLarge : File := ⟨"video/mp4", "clip.mp4", 524288001⟩

/-- A small valid video file. -/
def clip : File := ⟨"video/mp4", "clip.mp4", 1000⟩

/-- The upload answers OK with the server filename `n`. -/
def okUpload (n : String) : FetchOutcome := FetchOutcome.responded true (some n) none

/-- The process-start request answers OK. -/
def okProcess : FetchOutcome := FetchOutcome.responded true none none

/-- A channel event that carries only `output_file`. -/
def outputEvent (f : String) : ChannelEvent := ⟨none, none, none, some f, none⟩

/-- A session that ends with the artifact `f` announced: a file is selected,
uploaded and processed, and the channel reports the output file. -/
def completedWith (f : String) : AppState :=
  run sampleStart [Op.handleFileSelect [clip], Op.processVideo (okUpload f) okProcess,
    Op.onmessage (outputEvent f)]

/-- A channel event that carries only progress data. -/
def progressEvent (percent processed total : Nat) : ChannelEvent :=
  ⟨some percent, some processed, some total, none, none⟩

/-- A channel event that carries only `progress`. -/
def percentEvent (percent : Nat) : ChannelEvent :=
  ⟨some percent, none, none, none, none⟩

/-- A session in which `clip` was selected and both requests of `processVideo`
succeeded: the job is being processed. -/
def uploadedState : AppState :=
  run sampleStart [Op.handleFileSelect [clip], Op.processVideo (okUpload "a.mp4") okProcess]

/-- The job is being processed and the channel has reported 45 of 100 frames. -/
def processingState : AppState :=
  onmessage uploadedState (progressEvent 45 45 100)

/-- A channel event whose `error` key is present and holds the empty string. -/
def emptyErrorEvent : ChannelEvent := ⟨none, none, none, none, some ""⟩

/-- A channel event that reports progress and an error at once. -/
def progressAndErrorEvent : ChannelEvent :=
  ⟨some 45, some 45, some 100, none, some "decode failed"⟩

/-- A channel event that reports only an error. -/
def errorEvent : ChannelEvent := ⟨none, none, none, none, some "decode failed"⟩

/-- A channel event that reports an output file and an error at once. -/
def outputAndErrorEvent : ChannelEvent :=
  ⟨some 100, none, none, some "a.mp4", some "encoder crashed"⟩

/-- A channel event whose `output_file` key is present and holds the empty
string. -/
def emptyOutputEvent : ChannelEvent := ⟨none, none, none, some "", none⟩

/-- The last event of the sample run: 100 percent and the output file. -/
def finalEvent : ChannelEvent := ⟨some 100, none, none, some "a.mp4", none⟩

/-- A state that a session reaches before `processVideo` is called: `clip` is
selected and the channel has delivered a progress event of 40 percent. -/
def staleProgressState : AppState :=
  run sampleStart [Op.handleFileSelect [clip], Op.onmessage (percentEvent 40)]

/-- A state in which `clip` is selected and nothing else has happened. -/
def fileSelectedState : AppState :=
  run sampleStart [Op.handleFileSelect [clip]]

/-- The request answers with a non-OK status and the body `detail`. -/
def failed (detail : Option String) : FetchOutcome :=
  FetchOutcome.responded false none detail

/-- The invariant behind the result actions: an output file is recorded exactly
when the results panel is shown, a recorded output file is a non-empty string,
and the alert of the no-video branch has never been raised. -/
def ArtifactInvariant (s : AppState) : Prop :=
  (s.outputFilename.isSome = true ↔ s.resultsSectionHidden = false) ∧
  truthy s.outputFilename = s.outputFilename.isSome ∧
  noVideoAlert ∉ s.effects

/-- A full session: select a file, process it with a progress event between the
two requests, lose the channel and reconnect, complete, open the result and
download it. -/
def sampleSession : List Op :=
  [Op.showUploadSection, Op.handleFileSelect [clip], Op.processVideoBegin,
    Op.uploadResponded (okUpload "a.mp4"), Op.onmessage (percentEvent 10),
    Op.processResponded okProcess, Op.onmessage (percentEvent 45), Op.onerror, Op.onclose,
    Op.fireTimer 0, Op.onopen, Op.onmessage finalEvent, Op.openVideoInNewTab true,
    Op.downloadVideo]

/-- The progress value of the latest event of the sequence that carries one. -/
def lastProgress (evs : List ChannelEvent) : Option Nat :=
  (evs.filterMap (fun e => e.progress)).getLast?

/-- The job is being processed and the channel has reported 50 percent. -/
def halfwayState : AppState :=
  onmessage uploadedState (percentEvent 50)

/-! ## Theorems: file validation -/

theorem isSuffixOf_lower_iff (name ext : String) :
    ext.toList.isSuffixOf (name.toList.map Char.toLower) = true ↔ endsInIgnoringCase name ext := by
  rw [List.isSuffixOf_iff_suffix]
  constructor
  · rintro ⟨t, ht⟩
    obtain ⟨l₁, l₂, h, -, h₂⟩ := List.map_eq_append_iff.mp ht.symm
    exact ⟨String.mk l₁, String.mk l₂, String.ext (by simpa using h), by simpa using h₂⟩
  · rintro ⟨stem, tail, h, htail⟩
    refine ⟨stem.toList.map Char.toLower, ?_⟩
    subst h
    rw [← htail]
    simp [String.toList]

theorem extensionMatches_iff (file : File) :
    extensionMatches file.name = true ↔ extensionValid file := by
  unfold extensionMatches extensionValid
  simp only [List.any_cons, List.any_nil, Bool.or_false, Bool.or_eq_true, isSuffixOf_lower_iff]

/-- C1. `validateFile` decides by type first, then size: a file that is valid
neither by declared type nor by extension is rejected with the type message
whatever its size; otherwise a size above 500 MiB is rejected with the size
message; otherwise the file is accepted and nothing is notified. -/
theorem validateFile_spec (s : AppState) (file : File) :
    (¬ declaredTypeValid file ∧ ¬ extensionValid file →
      (validateFile s file).1 = false ∧
      (validateFile s file).2.effects = s.effects ++
        [Effect.toast "Invalid file type. Please upload MP4, AVI, or MOV file." "error"]) ∧
    ((declaredTypeValid file ∨ extensionValid file) ∧ file.size > 500 * 1024 * 1024 →
      (validateFile s file).1 = false ∧
      (validateFile s file).2.effects = s.effects ++
        [Effect.toast "File size too large. Maximum size is 500MB." "error"]) ∧
    ((declaredTypeValid file ∨ extensionValid file) ∧ file.size ≤ 524288000 →
      validateFile s file = (true, s)) := by
  simp only [← extensionMatches_iff, declaredTypeValid]
  refine ⟨?_, ?_, ?_⟩
  · rintro ⟨h1, h2⟩
    simp only [not_or] at h1
    simp [validateFile, showToast, h1, h2]
  · rintro ⟨h, hsize⟩
    have hs : 524288000 < file.size := hsize
    have hc : ¬ ((¬file.type = "video/mp4" ∧ ¬file.type = "video/avi" ∧
        ¬file.type = "video/quicktime") ∧ extensionMatches file.name = false) := by
      rintro ⟨⟨a, b, c⟩, d⟩
      rcases h with (h | h | h) | h
      · exact a h
      · exact b h
      · exact c h
      · rw [d] at h; exact Bool.noConfusion h
    simp [validateFile, showToast, hc, hs]
  · rintro ⟨h, hsize⟩
    have hs : ¬ 524288000 < file.size := by omega
    have hc : ¬ ((¬file.type = "video/mp4" ∧ ¬file.type = "video/avi" ∧
        ¬file.type = "video/quicktime") ∧ extensionMatches file.name = false) := by
      rintro ⟨⟨a, b, c⟩, d⟩
      rcases h with (h | h | h) | h
      · exact a h
      · exact b h
      · exact c h
      · rw [d] at h; exact Bool.noConfusion h
    simp [validateFile, hc, hs]

/-- Witness of C1: one sample file for each of the three outcomes. -/
theorem validateFile_spec_witness :
    ((validateFile sampleStart sampleWrongType).1 = false ∧
      (validateFile sampleStart sampleWrongType).2.effects = sampleStart.effects ++
        [Effect.toast "Invalid file type. Please upload MP4, AVI, or MOV file." "error"]) ∧
    ((validateFile sampleStart sampleTooLarge).1 = false ∧
      (validateFile sampleStart sampleTooLarge).2.effects = sampleStart.effects ++
        [Effect.toast "File size too large. Maximum size is 500MB." "error"]) ∧
    validateFile sampleStart sampleMislabelled = (true, sampleStart) :=
  ⟨(validateFile_spec sampleStart sampleWrongType).1
      ⟨by decide, (extensionMatches_iff sampleWrongType).not.mp (by decide)⟩,
    (validateFile_spec sampleStart sampleTooLarge).2.1
      ⟨Or.inl (by decide), by decide⟩,
    (validateFile_spec sampleStart sampleMislabelled).2.2
      ⟨Or.inr ((extensionMatches_iff sampleMislabelled).mp (by decide)), by decide⟩⟩

/-! ## Theorems: result links -/

theorem not_isPrefixOf_mp4 (l : List Char) (hne : l ≠ [])
    (h : ¬ ".mp4".toList <:+: l) : ".mp4".toList.isPrefixOf (l ++ ".mp4".toList) = false := by
  match l, hne, h with
  | [a], _, _ => 
    by_cases ha : a = '.' <;> simp [String.toList, List.isPrefixOf, ha]
  | [a, b], _, _ => 
    by_cases ha : a = '.' <;> by_cases hb : b = 'm' <;> simp [String.toList, List.isPrefixOf, ha, hb]
  | [a, b, c], _, _ => 
    by_cases ha : a = '.' <;> by_cases hb : b = 'm' <;> by_cases hc : c = 'p' <;>
      simp [String.toList, List.isPrefixOf, ha, hb, hc]
  | a :: b :: c :: d :: rest, _, h =>
    rw [← Bool.not_eq_true, List.isPrefixOf_iff_prefix]
    intro hp
    apply h
    have : ".mp4".toList <+: a :: b :: c :: d :: rest := by
      have h4 : ".mp4".toList.length ≤ (a :: b :: c :: d :: rest).length := by
        simp [String.toList]
      exact List.prefix_of_prefix_length_le hp (List.prefix_append _ _) h4
    exact this.isInfix

theorem replaceFirst_mp4_append (l : List Char) (h : ¬ ".mp4".toList <:+: l) :
    replaceFirst ".mp4".toList ".avi".toList (l ++ ".mp4".toList) = l ++ ".avi".toList := by
  induction l with
  | nil => decide
  | cons c l ih =>
    have hp := not_isPrefixOf_mp4 (c :: l) (by simp) h
    have hl : ¬ ".mp4".toList <:+: l := fun hi => h (hi.trans (List.suffix_cons c l).isInfix)
    rw [List.cons_append, replaceFirst]
    rw [List.cons_append] at hp
    simp only [hp, ih hl]
    simp

theorem replace_mp4_of_stem (stem : String) (h : ¬ ".mp4".toList <:+: stem.toList) :
    replace (stem ++ ".mp4") ".mp4" ".avi" = stem ++ ".avi" := by
  unfold replace
  apply String.ext
  have h1 : (stem ++ ".mp4").toList = stem.toList ++ ".mp4".toList := by simp [String.toList]
  rw [h1, replaceFirst_mp4_append _ h]
  simp [String.toList]

theorem truthy_append_mp4 (stem : String) : truthy (some (stem ++ ".mp4")) = true := by
  have h : stem ++ ".mp4" ≠ "" := by
    intro h
    have h2 := congrArg String.length h
    simp at h2
    exact absurd h2.2 (by decide)
  simp [truthy, h]

/-- Supporting fact for C2: when the stem itself contains no `.mp4`, the first
occurrence is the extension, and both result actions address
`/outputs/` + stem + `.avi`. -/
theorem resultLinks_of_plain_stem (s : AppState) (stem : String) (popupAllowed : Bool)
    (hs : s.outputFilename = some (stem ++ ".mp4")) (h : ¬ ".mp4".toList <:+: stem.toList) :
    (∃ rest, (openVideoInNewTab s popupAllowed).effects =
      s.effects ++ Effect.windowOpen ("/outputs/" ++ (stem ++ ".avi")) "_blank" :: rest) ∧
    (downloadVideo s).effects = s.effects ++
      [Effect.linkClick ("/outputs/" ++ (stem ++ ".avi")) (stem ++ ".avi"),
        Effect.toast "Download started" "success"] := by
  have ht := truthy_append_mp4 stem
  have hr := replace_mp4_of_stem stem h
  constructor
  · cases popupAllowed
    · exact ⟨[Effect.alert "Pop-ups blocked! Please allow pop-ups and try again."], by
        simp [openVideoInNewTab, hs, ht, hr, render]⟩
    · exact ⟨[Effect.toast "Opening video in new tab" "success"], by
        simp [openVideoInNewTab, hs, ht, hr, render, showToast]⟩
  · simp [downloadVideo, hs, ht, hr, render, showToast]

/-- Witness of the supporting fact: `clip.mp4` gives `/outputs/clip.avi`. -/
theorem resultLinks_of_plain_stem_witness :
    (∃ rest, (openVideoInNewTab (completedWith "clip.mp4") true).effects =
      (completedWith "clip.mp4").effects ++
        Effect.windowOpen ("/outputs/" ++ ("clip" ++ ".avi")) "_blank" :: rest) ∧
    (downloadVideo (completedWith "clip.mp4")).effects = (completedWith "clip.mp4").effects ++
      [Effect.linkClick ("/outputs/" ++ ("clip" ++ ".avi")) ("clip" ++ ".avi"),
        Effect.toast "Download started" "success"] :=
  resultLinks_of_plain_stem (completedWith "clip.mp4") "clip" true (by decide) (by decide)

/-- C2 (the code at the failing input).  For the artifact `my.mp4.mp4`, whose
stem is `my.mp4`, both result actions address `/outputs/my.avi.mp4` and the
download is named `my.avi.mp4`: the first `.mp4` of the name is rewritten, the
extension is left as it was.  The claim requires `/outputs/my.mp4.avi`. -/
theorem resultLinks_first_occurrence :
    (completedWith "my.mp4.mp4").outputFilename = some ("my.mp4" ++ ".mp4") ∧
    (openVideoInNewTab (completedWith "my.mp4.mp4") true).effects =
      (completedWith "my.mp4.mp4").effects ++
        [Effect.windowOpen "/outputs/my.avi.mp4" "_blank",
          Effect.toast "Opening video in new tab" "success"] ∧
    (downloadVideo (completedWith "my.mp4.mp4")).effects =
      (completedWith "my.mp4.mp4").effects ++
        [Effect.linkClick "/outputs/my.avi.mp4" "my.avi.mp4",
          Effect.toast "Download started" "success"] ∧
    "/outputs/my.avi.mp4" ≠ "/outputs/" ++ "my.mp4" ++ ".avi" := by
  decide

/-! ## Theorems: channel events, error and completion -/

/-- C3 (counterexample).  An event whose `error` key holds the empty string
carries an error, yet the handler leaves the processing view as it is and
notifies nothing; and after the event `decode failed` the status label of the
failed job (phase and frame counts) is still in place. -/
theorem onmessage_error_counterexample :
    emptyErrorEvent.error.isSome = true ∧
    onmessage processingState emptyErrorEvent = processingState ∧
    processingState.selectedFile = some clip ∧
    processingState.progressCardHidden = false ∧
    processingState.progressPercent = "45%" ∧
    (onmessage processingState errorEvent).progressStatus =
      "Detecting vehicles... (45/100 frames)" := by
  refine ⟨by decide, ?_, by decide, by decide, by decide, by decide⟩
  simp [onmessage, handleProgress, handleOutputFile, handleError, emptyErrorEvent, truthy]

/-- C3 (amended).  For every channel event whose `error` is a non-empty string,
whatever the state before and whatever else the event carries, after the
handler there is no selected file and no output artifact, the results panel,
the progress card and the file-info card are hidden, the upload area is shown,
the percent text is `0%`, the ring offset is the full circumference 534.07, and
the last effect is the error notification `Processing error: <error>`, which is
the toast on display. -/
theorem onmessage_error (s : AppState) (data : ChannelEvent) (msg : String)
    (h : data.error = some msg) (hne : msg ≠ "") :
    (onmessage s data).selectedFile = none ∧
    (onmessage s data).outputFilename = none ∧
    (onmessage s data).resultsSectionHidden = true ∧
    (onmessage s data).progressCardHidden = true ∧
    (onmessage s data).fileInfoHidden = true ∧
    (onmessage s data).uploadAreaHidden = false ∧
    (onmessage s data).progressPercent = "0%" ∧
    (onmessage s data).strokeDashoffset = circumference ∧
    (onmessage s data).effects.getLast? = some (Effect.toast ("Processing error: " ++ msg) "error") ∧
    (onmessage s data).toastMessage = "Processing error: " ++ msg ∧
    (onmessage s data).toastClassName = "toast error" ∧
    (onmessage s data).toastHidden = false := by
  simp [onmessage, handleProgress, handleOutputFile, handleError, h, truthy, hne, resetApp, showToast, render, circumference]

/-- Witness of C3 (amended): the event `decode failed`, with progress in the same
event, while the job is being processed. -/
theorem onmessage_error_witness :
    (onmessage processingState progressAndErrorEvent).selectedFile = none ∧
    (onmessage processingState progressAndErrorEvent).outputFilename = none ∧
    (onmessage processingState progressAndErrorEvent).resultsSectionHidden = true ∧
    (onmessage processingState progressAndErrorEvent).progressCardHidden = true ∧
    (onmessage processingState progressAndErrorEvent).fileInfoHidden = true ∧
    (onmessage processingState progressAndErrorEvent).uploadAreaHidden = false ∧
    (onmessage processingState progressAndErrorEvent).progressPercent = "0%" ∧
    (onmessage processingState progressAndErrorEvent).strokeDashoffset = circumference ∧
    (onmessage processingState progressAndErrorEvent).effects.getLast? =
      some (Effect.toast ("Processing error: " ++ "decode failed") "error") ∧
    (onmessage processingState progressAndErrorEvent).toastMessage =
      "Processing error: " ++ "decode failed" ∧
    (onmessage processingState progressAndErrorEvent).toastClassName = "toast error" ∧
    (onmessage processingState progressAndErrorEvent).toastHidden = false :=
  onmessage_error processingState progressAndErrorEvent "decode failed" rfl (by decide)

/-- C4 (counterexample).  An event that carries `output_file` together with an
error ends with no artifact and the results panel hidden; and an event whose
`output_file` holds the empty string changes nothing. -/
theorem onmessage_output_counterexample :
    outputAndErrorEvent.output_file = some "a.mp4" ∧
    (onmessage processingState outputAndErrorEvent).outputFilename = none ∧
    (onmessage processingState outputAndErrorEvent).resultsSectionHidden = true ∧
    emptyOutputEvent.output_file.isSome = true ∧
    onmessage processingState emptyOutputEvent = processingState ∧
    processingState.outputFilename = none ∧
    processingState.resultsSectionHidden = true := by
  refine ⟨by decide, by decide, by decide, by decide, ?_, by decide, by decide⟩
  simp [onmessage, handleProgress, handleOutputFile, handleError, emptyOutputEvent, truthy]

/-- C4 (amended).  For every channel event whose `output_file` is a non-empty
string `f` and whose `error` is absent or empty, after the handler the artifact
is `f`, the progress card is hidden, the results panel is shown and the last
effect is the completion notification. -/
theorem onmessage_output (s : AppState) (data : ChannelEvent) (f : String)
    (h : data.output_file = some f) (hf : f ≠ "")
    (he : data.error = none ∨ data.error = some "") :
    (onmessage s data).outputFilename = some f ∧
    (onmessage s data).progressCardHidden = true ∧
    (onmessage s data).resultsSectionHidden = false ∧
    (onmessage s data).effects.getLast? =
      some (Effect.toast "Video processing complete!" "success") := by
  rcases he with he | he <;>
    simp [onmessage, handleProgress, handleOutputFile, handleError, h, he, truthy, hf, showResults, showToast]

/-- Witness of C4 (amended): the events `progress 10`, `progress 45`, then
`progress 100` with `output_file` equal to `a.mp4`. -/
theorem onmessage_output_witness :
    (onmessage (run uploadedState [Op.onmessage (percentEvent 10), Op.onmessage (percentEvent 45)])
      finalEvent).outputFilename = some "a.mp4" ∧
    (onmessage (run uploadedState [Op.onmessage (percentEvent 10), Op.onmessage (percentEvent 45)])
      finalEvent).progressCardHidden = true ∧
    (onmessage (run uploadedState [Op.onmessage (percentEvent 10), Op.onmessage (percentEvent 45)])
      finalEvent).resultsSectionHidden = false ∧
    (onmessage (run uploadedState [Op.onmessage (percentEvent 10), Op.onmessage (percentEvent 45)])
      finalEvent).effects.getLast? = some (Effect.toast "Video processing complete!" "success") :=
  onmessage_output _ finalEvent "a.mp4" rfl (by decide) (Or.inl rfl)

/-! ## Theorems: upload and process start -/

/-- C5 (counterexample).  In a reachable state with a file selected and 40%
on display, a run of `processVideo` in which both requests succeed ends with
the progress card shown and still 40% on display, the ring where it was. -/
theorem processVideo_success_counterexample :
    staleProgressState.selectedFile = some clip ∧
    (processVideo staleProgressState (okUpload "a.mp4") okProcess).fileInfoHidden = true ∧
    (processVideo staleProgressState (okUpload "a.mp4") okProcess).progressCardHidden = false ∧
    (processVideo staleProgressState (okUpload "a.mp4") okProcess).progressPercent = "40%" ∧
    (processVideo staleProgressState (okUpload "a.mp4") okProcess).progressPercent ≠ "0%" ∧
    (processVideo staleProgressState (okUpload "a.mp4") okProcess).strokeDashoffset ≠
      circumference := by
  refine ⟨by decide, by decide, by decide, by decide, by decide, ?_⟩
  simp [processVideo, processVideoBegin, uploadResponded, processResponded, okUpload, okProcess,
    staleProgressState, run, step, onmessage, handleProgress, handleOutputFile, handleError, percentEvent, truthy, updateProgress,
    handleFileSelect, validateFile, displayFileInfo, showToast, clip, circumference]
  norm_num

/-- C5 (amended).  For every run of `processVideo` with a file selected in which
the upload answers OK with the filename `n` and the process-start request
answers OK: the file-info card is hidden and the progress card is shown; the
two requests sent are the upload and the process start for `n`, the only use
made of `n`; the selected file, the output artifact and the progress display
(percent, ring, status) are what they were before the call. -/
theorem processVideo_success (s : AppState) (file : File) (n : String)
    (filename detail detail' : Option String) (h : s.selectedFile = some file) :
    (processVideo s (FetchOutcome.responded true (some n) detail)
      (FetchOutcome.responded true filename detail')).fileInfoHidden = true ∧
    (processVideo s (FetchOutcome.responded true (some n) detail)
      (FetchOutcome.responded true filename detail')).progressCardHidden = false ∧
    (processVideo s (FetchOutcome.responded true (some n) detail)
      (FetchOutcome.responded true filename detail')).effects =
      s.effects ++ [Effect.toast "Uploading video..." "success",
        Effect.fetch "POST" "/api/upload", Effect.fetch "POST" ("/api/process/" ++ n)] ∧
    (processVideo s (FetchOutcome.responded true (some n) detail)
      (FetchOutcome.responded true filename detail')).selectedFile = some file ∧
    (processVideo s (FetchOutcome.responded true (some n) detail)
      (FetchOutcome.responded true filename detail')).outputFilename = s.outputFilename ∧
    (processVideo s (FetchOutcome.responded true (some n) detail)
      (FetchOutcome.responded true filename detail')).progressPercent = s.progressPercent ∧
    (processVideo s (FetchOutcome.responded true (some n) detail)
      (FetchOutcome.responded true filename detail')).strokeDashoffset = s.strokeDashoffset ∧
    (processVideo s (FetchOutcome.responded true (some n) detail)
      (FetchOutcome.responded true filename detail')).progressStatus = s.progressStatus := by
  simp [processVideo, processVideoBegin, uploadResponded, processResponded, h, showToast, render]

/-- Witness of C5 (amended): the upload returns the filename `a.mp4`; the page
had 0% on display and still has. -/
theorem processVideo_success_witness :
    (processVideo fileSelectedState (okUpload "a.mp4") okProcess).fileInfoHidden = true ∧
    (processVideo fileSelectedState (okUpload "a.mp4") okProcess).progressCardHidden = false ∧
    (processVideo fileSelectedState (okUpload "a.mp4") okProcess).effects =
      fileSelectedState.effects ++ [Effect.toast "Uploading video..." "success",
        Effect.fetch "POST" "/api/upload", Effect.fetch "POST" ("/api/process/" ++ "a.mp4")] ∧
    (processVideo fileSelectedState (okUpload "a.mp4") okProcess).selectedFile = some clip ∧
    (processVideo fileSelectedState (okUpload "a.mp4") okProcess).outputFilename =
      fileSelectedState.outputFilename ∧
    (processVideo fileSelectedState (okUpload "a.mp4") okProcess).progressPercent =
      fileSelectedState.progressPercent ∧
    (processVideo fileSelectedState (okUpload "a.mp4") okProcess).strokeDashoffset =
      fileSelectedState.strokeDashoffset ∧
    (processVideo fileSelectedState (okUpload "a.mp4") okProcess).progressStatus =
      fileSelectedState.progressStatus :=
  processVideo_success fileSelectedState clip "a.mp4" none none none (by decide)

/-- C6.  For every run of `processVideo` with a file selected in which the upload,
or after a successful upload the process-start request, answers non-OK with
the body `detail`: the job state after the call is the job state before it,
and the last effect is an error notification whose message is `detail` when
that is a non-empty string, and otherwise `Upload failed` for the upload and
`Processing failed` for the process start. -/
theorem processVideo_failure (s : AppState) (file : File) (h : s.selectedFile = some file)
    (filename filename' detail detail' : Option String) (process : FetchOutcome) :
    (jobState (processVideo s (FetchOutcome.responded false filename detail) process) =
        jobState s ∧
      (∀ d, detail = some d → d ≠ "" →
        (processVideo s (FetchOutcome.responded false filename detail) process).effects.getLast? =
          some (Effect.toast d "error")) ∧
      (detail = none ∨ detail = some "" →
        (processVideo s (FetchOutcome.responded false filename detail) process).effects.getLast? =
          some (Effect.toast "Upload failed" "error"))) ∧
    (jobState (processVideo s (FetchOutcome.responded true filename detail')
        (FetchOutcome.responded false filename' detail)) = jobState s ∧
      (∀ d, detail = some d → d ≠ "" →
        (processVideo s (FetchOutcome.responded true filename detail')
          (FetchOutcome.responded false filename' detail)).effects.getLast? =
          some (Effect.toast d "error")) ∧
      (detail = none ∨ detail = some "" →
        (processVideo s (FetchOutcome.responded true filename detail')
          (FetchOutcome.responded false filename' detail)).effects.getLast? =
          some (Effect.toast "Processing failed" "error"))) := by
  refine ⟨⟨?_, ?_, ?_⟩, ?_, ?_, ?_⟩
  · simp [processVideo, processVideoBegin, uploadResponded, h, showToast, jobState]
  · intro d hd hne
    simp [processVideo, processVideoBegin, uploadResponded, h, showToast, orElse, hd, hne]
  · rintro (hd | hd) <;>
      simp [processVideo, processVideoBegin, uploadResponded, h, showToast, orElse, hd]
  · simp [processVideo, processVideoBegin, uploadResponded, processResponded, h, showToast,
      jobState]
  · intro d hd hne
    simp [processVideo, processVideoBegin, uploadResponded, processResponded, h, showToast,
      orElse, hd, hne]
  · rintro (hd | hd) <;>
      simp [processVideo, processVideoBegin, uploadResponded, processResponded, h, showToast,
        orElse, hd]

/-- Witness of C6: the upload succeeds, the process-start request answers non-OK
with the detail `busy`; the job state stays that of the selected file and
`busy` is notified. -/
theorem processVideo_failure_witness :
    jobState (processVideo fileSelectedState (okUpload "a.mp4") (failed (some "busy"))) =
      jobState fileSelectedState ∧
    (processVideo fileSelectedState (okUpload "a.mp4") (failed (some "busy"))).effects.getLast? =
      some (Effect.toast "busy" "error") ∧
    fileSelectedState.selectedFile = some clip ∧
    fileSelectedState.progressCardHidden = true ∧
    fileSelectedState.outputFilename = none :=
  ⟨(processVideo_failure fileSelectedState clip (by decide) (some "a.mp4") none (some "busy")
      none okProcess).2.1,
    (processVideo_failure fileSelectedState clip (by decide) (some "a.mp4") none (some "busy")
      none okProcess).2.2.1 "busy" rfl (by decide),
    by decide, by decide, by decide⟩

/-! ## Theorems: progress display -/

/-- C7.  The status text set by `updateProgress` is the entry of the phase table:
with a positive total `t` the four labels with `(p/t frames)` on the ranges
below 30, 30 to below 70, 70 to below 95, and 95 or more; with a total that is
0 or absent the four labels without counts on the same ranges; an absent
processed count reads as 0.  The selected file, the output artifact and the
panels are not changed. -/
theorem updateProgress_status (s : AppState) (percent : Nat) :
    (∀ p t : Nat, 0 < t →
      (percent < 30 → (updateProgress s percent (some p) (some t)).progressStatus =
        "Initializing... (" ++ toString p ++ "/" ++ toString t ++ " frames)") ∧
      (30 ≤ percent → percent < 70 → (updateProgress s percent (some p) (some t)).progressStatus =
        "Detecting vehicles... (" ++ toString p ++ "/" ++ toString t ++ " frames)") ∧
      (70 ≤ percent → percent < 95 → (updateProgress s percent (some p) (some t)).progressStatus =
        "Rendering video... (" ++ toString p ++ "/" ++ toString t ++ " frames)") ∧
      (95 ≤ percent → (updateProgress s percent (some p) (some t)).progressStatus =
        "Finalizing... (" ++ toString p ++ "/" ++ toString t ++ " frames)") ∧
      updateProgress s percent none (some t) = updateProgress s percent (some 0) (some t)) ∧
    (∀ processedFrames totalFrames : Option Nat, totalFrames = none ∨ totalFrames = some 0 →
      (percent < 30 → (updateProgress s percent processedFrames totalFrames).progressStatus =
        "Initializing video processing...") ∧
      (30 ≤ percent → percent < 70 →
        (updateProgress s percent processedFrames totalFrames).progressStatus =
          "Analyzing frames and detecting vehicles...") ∧
      (70 ≤ percent → percent < 95 →
        (updateProgress s percent processedFrames totalFrames).progressStatus =
          "Rendering output video...") ∧
      (95 ≤ percent → (updateProgress s percent processedFrames totalFrames).progressStatus =
        "Finalizing...")) ∧
    (∀ processedFrames totalFrames : Option Nat,
      (updateProgress s percent processedFrames totalFrames).selectedFile = s.selectedFile ∧
      (updateProgress s percent processedFrames totalFrames).outputFilename = s.outputFilename ∧
      (updateProgress s percent processedFrames totalFrames).uploadAreaHidden =
        s.uploadAreaHidden ∧
      (updateProgress s percent processedFrames totalFrames).fileInfoHidden = s.fileInfoHidden ∧
      (updateProgress s percent processedFrames totalFrames).progressCardHidden =
        s.progressCardHidden ∧
      (updateProgress s percent processedFrames totalFrames).resultsSectionHidden =
        s.resultsSectionHidden) := by
  refine ⟨?_, ?_, ?_⟩
  · intro p t ht
    refine ⟨?_, ?_, ?_, ?_, ?_⟩
    · intro h1
      simp [updateProgress, ht, h1]
    · intro h1 h2
      have h3 : ¬ percent < 30 := by omega
      simp [updateProgress, ht, h2, h3]
    · intro h1 h2
      have h3 : ¬ percent < 30 := by omega
      have h4 : ¬ percent < 70 := by omega
      simp [updateProgress, ht, h2, h3, h4]
    · intro h1
      have h3 : ¬ percent < 30 := by omega
      have h4 : ¬ percent < 70 := by omega
      have h5 : ¬ percent < 95 := by omega
      simp [updateProgress, ht, h3, h4, h5]
    · simp [updateProgress]
  · intro pf tf htf
    have ht : ¬ tf.getD 0 > 0 := by
      rcases htf with h | h <;> simp [h]
    refine ⟨?_, ?_, ?_, ?_⟩
    · intro h1
      simp only [updateProgress, ht, h1, if_true, if_false]
    · intro h1 h2
      have h3 : ¬ percent < 30 := by omega
      simp only [updateProgress, ht, h2, h3, if_true, if_false]
    · intro h1 h2
      have h3 : ¬ percent < 30 := by omega
      have h4 : ¬ percent < 70 := by omega
      simp only [updateProgress, ht, h2, h3, h4, if_true, if_false]
    · intro h1
      have h3 : ¬ percent < 30 := by omega
      have h4 : ¬ percent < 70 := by omega
      have h5 : ¬ percent < 95 := by omega
      simp only [updateProgress, ht, h3, h4, h5, if_true, if_false]
  · intro pf tf
    unfold updateProgress
    simp only []
    split_ifs <;> simp

/-- Witness of C7: 45 percent with 45 of 100 frames, and 10 percent without frame
counts. -/
theorem updateProgress_status_witness :
    (updateProgress uploadedState 45 (some 45) (some 100)).progressStatus =
      "Detecting vehicles... (" ++ toString 45 ++ "/" ++ toString 100 ++ " frames)" ∧
    (updateProgress uploadedState 10 none none).progressStatus =
      "Initializing video processing..." :=
  ⟨((updateProgress_status uploadedState 45).1 45 100 (by decide)).2.1 (by decide) (by decide),
    ((updateProgress_status uploadedState 10).2.1 none none (Or.inl rfl)).1 (by decide)⟩

/-! ## Theorems: the artifact and the results panel -/

theorem showToast_artifact (s : AppState) (message type : String) (h : ArtifactInvariant s) :
    ArtifactInvariant (showToast s message type) := by
  obtain ⟨h1, h2, h3⟩ := h
  exact ⟨h1, h2, by simpa [showToast, noVideoAlert] using h3⟩

theorem validateFile_artifact (s : AppState) (file : File) (h : ArtifactInvariant s) :
    ArtifactInvariant (validateFile s file).2 := by
  unfold validateFile
  simp only []
  split_ifs
  · exact showToast_artifact _ _ _ h
  · exact showToast_artifact _ _ _ h
  · exact h

theorem updateProgress_artifact (s : AppState) (percent : Nat) (p t : Option Nat)
    (h : ArtifactInvariant s) : ArtifactInvariant (updateProgress s percent p t) := by
  obtain ⟨h1, h2, h3⟩ := h
  unfold updateProgress
  simp only []
  split_ifs <;> exact ⟨h1, h2, h3⟩

theorem resetApp_artifact (s : AppState) (h : ArtifactInvariant s) :
    ArtifactInvariant (resetApp s) := by
  obtain ⟨-, -, h3⟩ := h
  exact ⟨by simp [resetApp], by simp [resetApp, truthy], h3⟩

theorem handleOutputFile_artifact (s : AppState) (data : ChannelEvent)
    (h : ArtifactInvariant s) : ArtifactInvariant (handleOutputFile s data) := by
  unfold handleOutputFile
  split_ifs with ht
  · unfold showResults
    apply showToast_artifact
    cases hf : data.output_file with
    | none => simp [hf, truthy] at ht
    | some f =>
      rw [hf] at ht
      exact ⟨by simp, by simp [ht], h.2.2⟩
  · exact h

theorem onmessage_artifact (s : AppState) (data : ChannelEvent) (h : ArtifactInvariant s) :
    ArtifactInvariant (onmessage s data) := by
  have h1 : ArtifactInvariant (handleProgress s data) := by
    unfold handleProgress
    cases data.progress with
    | none => exact h
    | some percent => exact updateProgress_artifact _ _ _ _ h
  have h2 := handleOutputFile_artifact _ data h1
  unfold onmessage handleError
  split_ifs
  · exact resetApp_artifact _ (showToast_artifact _ _ _ h2)
  · exact h2

theorem processResponded_artifact (s : AppState) (process : FetchOutcome)
    (h : ArtifactInvariant s) : ArtifactInvariant (processResponded s process) := by
  cases process with
  | rejected message => exact showToast_artifact _ _ _ h
  | responded ok filename detail =>
    cases ok
    · exact showToast_artifact _ _ _ h
    · exact h

theorem uploadResponded_artifact (s : AppState) (upload : FetchOutcome)
    (h : ArtifactInvariant s) : ArtifactInvariant (uploadResponded s upload).2 := by
  cases upload with
  | rejected message => exact showToast_artifact _ _ _ h
  | responded ok filename detail =>
    cases ok
    · exact showToast_artifact _ _ _ h
    · obtain ⟨h1, h2, h3⟩ := h
      exact ⟨h1, h2, by simpa [uploadResponded, noVideoAlert] using h3⟩

theorem processVideoBegin_artifact (s : AppState) (h : ArtifactInvariant s) :
    ArtifactInvariant (processVideoBegin s).2 := by
  unfold processVideoBegin
  cases s.selectedFile with
  | none => exact showToast_artifact _ _ _ h
  | some file =>
    obtain ⟨h1, h2, h3⟩ := showToast_artifact s "Uploading video..." "success" h
    exact ⟨h1, h2, by simpa [noVideoAlert] using h3⟩

theorem processVideo_artifact (s : AppState) (upload process : FetchOutcome)
    (h : ArtifactInvariant s) : ArtifactInvariant (processVideo s upload process) := by
  have hb := processVideoBegin_artifact s h
  have hu := uploadResponded_artifact _ upload hb
  have hp := processResponded_artifact _ process hu
  unfold processVideo
  simp only []
  split_ifs
  · exact hp
  · exact hu
  · exact hb

theorem healthResponded_artifact (s : AppState) (health : Option (String × Bool))
    (h : ArtifactInvariant s) : ArtifactInvariant (healthResponded s health) := by
  unfold healthResponded
  split
  · exact showToast_artifact _ _ _ h
  · split_ifs
    · exact h
    · exact showToast_artifact _ _ _ h

theorem fireTimer_artifact (s : AppState) (i : Nat) (h : ArtifactInvariant s) :
    ArtifactInvariant (fireTimer s i) := by
  unfold fireTimer
  split
  · exact h
  · rename_i t _
    obtain ⟨h1, h2, h3⟩ := h
    cases t.callback with
    | connectWebSocket =>
      exact ⟨h1, h2, by simpa [runCallback, connectWebSocket, noVideoAlert] using h3⟩
    | hideToast => exact ⟨h1, h2, h3⟩

theorem openVideoInNewTab_artifact (s : AppState) (popupAllowed : Bool)
    (h : ArtifactInvariant s) (hr : s.resultsSectionHidden = false) :
    ArtifactInvariant (openVideoInNewTab s popupAllowed) := by
  obtain ⟨h1, h2, h3⟩ := h
  have ht : truthy s.outputFilename = true := by rw [h2]; exact h1.mpr hr
  unfold openVideoInNewTab
  simp only [ht, Bool.not_true, Bool.false_eq_true, if_false]
  cases popupAllowed
  · exact ⟨h1, h2, by simpa [noVideoAlert] using h3⟩
  · exact showToast_artifact _ _ _ ⟨h1, h2, by simpa [noVideoAlert] using h3⟩

theorem downloadVideo_artifact (s : AppState) (h : ArtifactInvariant s)
    (hr : s.resultsSectionHidden = false) : ArtifactInvariant (downloadVideo s) := by
  obtain ⟨h1, h2, h3⟩ := h
  have ht : truthy s.outputFilename = true := by rw [h2]; exact h1.mpr hr
  unfold downloadVideo
  simp only [ht, Bool.not_true, Bool.false_eq_true, if_false]
  exact showToast_artifact _ _ _ ⟨h1, h2, by simpa [noVideoAlert] using h3⟩

theorem step_artifact (s : AppState) (op : Op) (h : ArtifactInvariant s)
    (he : enabled s op = true) : ArtifactInvariant (step s op) := by
  cases op with
  | showUploadSection => exact h
  | dragEnter => exact h
  | dragLeave => exact h
  | handleFileSelect files =>
    cases files with
    | nil => exact h
    | cons file rest =>
      have hv := validateFile_artifact s file h
      simp only [step, handleFileSelect]
      split_ifs
      · exact hv
      · exact hv
  | handleDrop files =>
    have h0 : ArtifactInvariant { s with uploadAreaDragOver := false } := h
    cases files with
    | nil => exact h0
    | cons file rest =>
      have hv := validateFile_artifact _ file h0
      simp only [step, handleDrop]
      split_ifs
      · exact hv
      · exact hv
  | processVideo upload process => exact processVideo_artifact s upload process h
  | processVideoBegin => exact processVideoBegin_artifact s h
  | uploadResponded upload => exact uploadResponded_artifact s upload h
  | processResponded process => exact processResponded_artifact s process h
  | healthResponded health => exact healthResponded_artifact s health h
  | onopen => exact h
  | onmessage data => exact onmessage_artifact s data h
  | onerror => exact h
  | onclose => exact h
  | fireTimer i => exact fireTimer_artifact s i h
  | openVideoInNewTab popupAllowed =>
    exact openVideoInNewTab_artifact s popupAllowed h (by simpa [enabled] using he)
  | downloadVideo => exact downloadVideo_artifact s h (by simpa [enabled] using he)
  | resetApp => exact resetApp_artifact s h

theorem run_artifact (ops : List Op) (s : AppState) (h : ArtifactInvariant s)
    (ha : admissible s ops = true) : ArtifactInvariant (run s ops) := by
  induction ops generalizing s with
  | nil => exact h
  | cons op ops ih =>
    simp only [admissible, Bool.and_eq_true] at ha
    exact ih (step s op) (step_artifact s op h ha.1) ha.2

theorem startState_artifact (protocol host : String) :
    ArtifactInvariant (startState protocol host) := by
  refine ⟨by simp [startState, domContentLoaded, connectWebSocket, initialState], by
    simp [startState, domContentLoaded, connectWebSocket, initialState, truthy], ?_⟩
  simp [startState, domContentLoaded, connectWebSocket, initialState, noVideoAlert]

/-- C8.  In every state reached from the start of the page by a sequence of events
(file selection or drop, `processVideo` as a whole or split at its requests
with any answers, channel events of any shape, connection events, timers,
`resetApp`, and the two result actions while the results panel is shown) the
output file is set exactly when the results panel is shown; and the alert of
the no-video branch of the result actions is never raised. -/
theorem artifact_iff_results (protocol host : String) (ops : List Op)
    (h : admissible (startState protocol host) ops = true) :
    ((run (startState protocol host) ops).outputFilename.isSome = true ↔
      (run (startState protocol host) ops).resultsSectionHidden = false) ∧
    noVideoAlert ∉ (run (startState protocol host) ops).effects ∧
    (∀ popupAllowed, (run (startState protocol host) ops).resultsSectionHidden = false →
      noVideoAlert ∉
        (openVideoInNewTab (run (startState protocol host) ops) popupAllowed).effects ∧
      noVideoAlert ∉ (downloadVideo (run (startState protocol host) ops)).effects) := by
  have hi := run_artifact ops _ (startState_artifact protocol host) h
  refine ⟨hi.1, hi.2.2, ?_⟩
  intro popupAllowed hr
  exact ⟨(openVideoInNewTab_artifact _ popupAllowed hi hr).2.2,
    (downloadVideo_artifact _ hi hr).2.2⟩

/-- Witness of C8: a full session, from selecting a file to the download. -/
theorem artifact_iff_results_witness :
    ((run (startState "http:" "localhost:8000") sampleSession).outputFilename.isSome = true ↔
      (run (startState "http:" "localhost:8000") sampleSession).resultsSectionHidden = false) ∧
    noVideoAlert ∉ (run (startState "http:" "localhost:8000") sampleSession).effects ∧
    (∀ popupAllowed,
      (run (startState "http:" "localhost:8000") sampleSession).resultsSectionHidden = false →
      noVideoAlert ∉ (openVideoInNewTab (run (startState "http:" "localhost:8000") sampleSession)
        popupAllowed).effects ∧
      noVideoAlert ∉
        (downloadVideo (run (startState "http:" "localhost:8000") sampleSession)).effects) :=
  artifact_iff_results "http:" "localhost:8000" sampleSession (by decide)

/-! ## Theorems: displayed progress -/

theorem handleOutputFile_progress (s : AppState) (data : ChannelEvent) :
    (handleOutputFile s data).progressPercent = s.progressPercent ∧
    (handleOutputFile s data).strokeDashoffset = s.strokeDashoffset := by
  unfold handleOutputFile
  split_ifs <;> simp [showResults, showToast]

theorem updateProgress_display (s : AppState) (percent : Nat) (p t : Option Nat) :
    (updateProgress s percent p t).progressPercent = toString percent ++ "%" ∧
    (updateProgress s percent p t).strokeDashoffset =
      circumference - ((percent : ℚ) / 100) * circumference := by
  unfold updateProgress
  simp only []
  split_ifs <;> simp

theorem onmessage_display (s : AppState) (data : ChannelEvent)
    (h : data.error = none ∨ data.error = some "") :
    (onmessage s data).progressPercent =
      (match data.progress with
        | some p => toString p ++ "%"
        | none => s.progressPercent) ∧
    (onmessage s data).strokeDashoffset =
      (match data.progress with
        | some p => circumference - ((p : ℚ) / 100) * circumference
        | none => s.strokeDashoffset) := by
  have he : handleError (handleOutputFile (handleProgress s data) data) data =
      handleOutputFile (handleProgress s data) data := by
    rcases h with h | h <;> simp [handleError, h, truthy]
  unfold onmessage
  rw [he, (handleOutputFile_progress _ data).1, (handleOutputFile_progress _ data).2]
  unfold handleProgress
  cases data.progress with
  | none => exact ⟨rfl, rfl⟩
  | some p => exact updateProgress_display s p _ _

/-- C9 (counterexample).  While the job is being processed, with 50% on display,
an event with progress 10 puts 10% on display and moves the ring back (a larger
offset is a shorter arc); the progress card stays shown and nothing was reset. -/
theorem onmessage_progress_counterexample :
    halfwayState.progressCardHidden = false ∧
    halfwayState.progressPercent = "50%" ∧
    (onmessage halfwayState (percentEvent 10)).progressPercent = "10%" ∧
    (onmessage halfwayState (percentEvent 10)).progressCardHidden = false ∧
    (onmessage halfwayState (percentEvent 10)).selectedFile = some clip ∧
    halfwayState.strokeDashoffset < (onmessage halfwayState (percentEvent 10)).strokeDashoffset := by
  refine ⟨by decide, by decide, by decide, by decide, by decide, ?_⟩
  rw [(onmessage_display halfwayState (percentEvent 10) (Or.inl rfl)).2]
  unfold halfwayState
  rw [(onmessage_display uploadedState (percentEvent 50) (Or.inl rfl)).2]
  simp only [percentEvent, circumference]
  norm_num

/-- C9 (amended).  For every sequence of channel events without error handled by
`ws.onmessage`, the percent on display afterwards is the progress value of the
latest event that carried one, and the display is unchanged when none did; the
ring offset is the matching share of the circumference.  The display is at
most 100 when the values received are; it follows the values received,
whether they rise or fall. -/
theorem onmessage_progress_display (s : AppState) (evs : List ChannelEvent)
    (h : ∀ e ∈ evs, e.error = none ∨ e.error = some "") :
    (evs.foldl onmessage s).progressPercent =
      (match lastProgress evs with
        | some p => toString p ++ "%"
        | none => s.progressPercent) ∧
    (evs.foldl onmessage s).strokeDashoffset =
      (match lastProgress evs with
        | some p => circumference - ((p : ℚ) / 100) * circumference
        | none => s.strokeDashoffset) ∧
    ((∀ e ∈ evs, ∀ q, e.progress = some q → q ≤ 100) →
      ∀ p, lastProgress evs = some p → p ≤ 100) := by
  induction evs using List.reverseRecOn with
  | nil => exact ⟨rfl, rfl, fun _ p hp => by simp [lastProgress] at hp⟩
  | append_singleton evs e ih =>
    have he := h e (by simp)
    obtain ⟨ih1, ih2, ih3⟩ := ih (fun e' he' => h e' (by simp [he']))
    have hd := onmessage_display (evs.foldl onmessage s) e he
    have hl : lastProgress (evs ++ [e]) = (match e.progress with
        | some p => some p
        | none => lastProgress evs) := by
      unfold lastProgress
      rw [List.filterMap_append]
      cases hp : e.progress with
      | none => simp [hp]
      | some p => simp [hp]
    rw [List.foldl_append, List.foldl_cons, List.foldl_nil, hl]
    refine ⟨?_, ?_, ?_⟩
    · rw [hd.1]
      cases hp : e.progress with
      | none => simpa using ih1
      | some p => rfl
    · rw [hd.2]
      cases hp : e.progress with
      | none => simpa using ih2
      | some p => rfl
    · intro hb p hp
      cases hq : e.progress with
      | none =>
        rw [hq] at hp
        exact ih3 (fun e' he' => hb e' (by simp [he'])) p hp
      | some q =>
        rw [hq] at hp
        have hqp : q = p := by simpa using hp
        rw [← hqp]
        exact hb e (by simp) q hq

/-- Witness of C9 (amended): the events `progress 10`, `progress 45`, `progress 100`
with the output file leave 100% on display. -/
theorem onmessage_progress_display_witness :
    ([percentEvent 10, percentEvent 45, finalEvent].foldl onmessage uploadedState).progressPercent =
      (match lastProgress [percentEvent 10, percentEvent 45, finalEvent] with
        | some p => toString p ++ "%"
        | none => uploadedState.progressPercent) ∧
    lastProgress [percentEvent 10, percentEvent 45, finalEvent] = some 100 :=
  ⟨(onmessage_progress_display uploadedState [percentEvent 10, percentEvent 45, finalEvent]
      (by decide)).1, by decide⟩

/-! ## Theorems: reconnection -/

theorem countP_eraseIdx_of_getElem? (p : Timer → Bool) (l : List Timer) (i : Nat) (t : Timer)
    (h : l[i]? = some t) :
    (l.eraseIdx i).countP p + (if p t then 1 else 0) = l.countP p := by
  induction l generalizing i with
  | nil => simp at h
  | cons a l ih =>
    cases i with
    | zero =>
      simp only [List.getElem?_cons_zero, Option.some.injEq] at h
      subst h
      simp [List.countP_cons]
    | succ i =>
      simp only [List.getElem?_cons_succ] at h
      have := ih i h
      simp only [List.eraseIdx_cons_succ, List.countP_cons]
      omega

theorem showToast_reconnects (s : AppState) (message type : String) :
    pendingReconnects (showToast s message type) = pendingReconnects s ∧
    (showToast s message type).socketsCreated = s.socketsCreated := by
  simp [showToast, pendingReconnects, List.countP_append]

theorem validateFile_reconnects (s : AppState) (file : File) :
    pendingReconnects (validateFile s file).2 = pendingReconnects s ∧
    (validateFile s file).2.socketsCreated = s.socketsCreated := by
  unfold validateFile
  simp only []
  split_ifs
  · exact showToast_reconnects _ _ _
  · exact showToast_reconnects _ _ _
  · exact ⟨rfl, rfl⟩

theorem select_reconnects (s : AppState) (file : File) :
    pendingReconnects (if (validateFile s file).1 then
        displayFileInfo { (validateFile s file).2 with selectedFile := some file } file
      else (validateFile s file).2) = pendingReconnects s ∧
    (if (validateFile s file).1 then
        displayFileInfo { (validateFile s file).2 with selectedFile := some file } file
      else (validateFile s file).2).socketsCreated = s.socketsCreated := by
  have hv := validateFile_reconnects s file
  split_ifs
  · exact hv
  · exact hv

theorem updateProgress_reconnects (s : AppState) (percent : Nat) (p t : Option Nat) :
    pendingReconnects (updateProgress s percent p t) = pendingReconnects s ∧
    (updateProgress s percent p t).socketsCreated = s.socketsCreated := by
  unfold updateProgress
  simp only []
  split_ifs <;> exact ⟨rfl, rfl⟩

theorem onmessage_reconnects (s : AppState) (data : ChannelEvent) :
    pendingReconnects (onmessage s data) = pendingReconnects s ∧
    (onmessage s data).socketsCreated = s.socketsCreated := by
  have h1 : pendingReconnects (handleProgress s data) = pendingReconnects s ∧
      (handleProgress s data).socketsCreated = s.socketsCreated := by
    unfold handleProgress
    cases data.progress with
    | none => exact ⟨rfl, rfl⟩
    | some percent => exact updateProgress_reconnects _ _ _ _
  have h2 : ∀ s1 : AppState, pendingReconnects (handleOutputFile s1 data) = pendingReconnects s1 ∧
      (handleOutputFile s1 data).socketsCreated = s1.socketsCreated := by
    intro s1
    unfold handleOutputFile
    split_ifs
    · exact showToast_reconnects _ _ _
    · exact ⟨rfl, rfl⟩
  have h3 : ∀ s2 : AppState, pendingReconnects (handleError s2 data) = pendingReconnects s2 ∧
      (handleError s2 data).socketsCreated = s2.socketsCreated := by
    intro s2
    unfold handleError
    split_ifs
    · exact showToast_reconnects s2 ("Processing error: " ++ render data.error) "error"
    · exact ⟨rfl, rfl⟩
  unfold onmessage
  rw [(h3 _).1, (h3 _).2, (h2 _).1, (h2 _).2]
  exact h1

theorem processResponded_reconnects (s : AppState) (process : FetchOutcome) :
    pendingReconnects (processResponded s process) = pendingReconnects s ∧
    (processResponded s process).socketsCreated = s.socketsCreated := by
  cases process with
  | rejected message => exact showToast_reconnects _ _ _
  | responded ok filename detail =>
    cases ok
    · exact showToast_reconnects _ _ _
    · exact ⟨rfl, rfl⟩

theorem uploadResponded_reconnects (s : AppState) (upload : FetchOutcome) :
    pendingReconnects (uploadResponded s upload).2 = pendingReconnects s ∧
    (uploadResponded s upload).2.socketsCreated = s.socketsCreated := by
  cases upload with
  | rejected message => exact showToast_reconnects _ _ _
  | responded ok filename detail =>
    cases ok
    · exact showToast_reconnects _ _ _
    · exact ⟨rfl, rfl⟩

theorem processVideoBegin_reconnects (s : AppState) :
    pendingReconnects (processVideoBegin s).2 = pendingReconnects s ∧
    (processVideoBegin s).2.socketsCreated = s.socketsCreated := by
  unfold processVideoBegin
  cases s.selectedFile with
  | none => exact showToast_reconnects _ _ _
  | some file => exact showToast_reconnects s "Uploading video..." "success"

theorem processVideo_reconnects (s : AppState) (upload process : FetchOutcome) :
    pendingReconnects (processVideo s upload process) = pendingReconnects s ∧
    (processVideo s upload process).socketsCreated = s.socketsCreated := by
  have hb := processVideoBegin_reconnects s
  have hu := uploadResponded_reconnects (processVideoBegin s).2 upload
  have hp := processResponded_reconnects (uploadResponded (processVideoBegin s).2 upload).2 process
  unfold processVideo
  simp only []
  split_ifs
  · exact ⟨by rw [hp.1, hu.1, hb.1], by rw [hp.2, hu.2, hb.2]⟩
  · exact ⟨by rw [hu.1, hb.1], by rw [hu.2, hb.2]⟩
  · exact hb

theorem fireTimer_reconnects (s : AppState) (i : Nat) :
    pendingReconnects (fireTimer s i) + (fireTimer s i).socketsCreated =
      pendingReconnects s + s.socketsCreated ∧
    s.socketsCreated ≤ (fireTimer s i).socketsCreated := by
  unfold fireTimer
  split
  · exact ⟨rfl, le_refl _⟩
  · rename_i t ht
    have hc := countP_eraseIdx_of_getElem? (fun t => t.callback = Callback.connectWebSocket)
      s.timers i t ht
    cases hcb : t.callback with
    | connectWebSocket =>
      simp only [hcb, decide_True, if_true] at hc
      simp only [runCallback, connectWebSocket, pendingReconnects]
      omega
    | hideToast =>
      simp [hcb] at hc
      simp only [runCallback, pendingReconnects]
      omega

theorem step_frame_reconnects (s : AppState) (op : Op) (h1 : op ≠ Op.onclose)
    (h2 : ∀ i, op ≠ Op.fireTimer i) :
    pendingReconnects (step s op) = pendingReconnects s ∧
    (step s op).socketsCreated = s.socketsCreated := by
  cases op with
  | showUploadSection => exact ⟨rfl, rfl⟩
  | dragEnter => exact ⟨rfl, rfl⟩
  | dragLeave => exact ⟨rfl, rfl⟩
  | handleFileSelect files =>
    cases files with
    | nil => exact ⟨rfl, rfl⟩
    | cons file rest => exact select_reconnects s file
  | handleDrop files =>
    cases files with
    | nil => exact ⟨rfl, rfl⟩
    | cons file rest => exact select_reconnects { s with uploadAreaDragOver := false } file
  | processVideo upload process => exact processVideo_reconnects s upload process
  | processVideoBegin => exact processVideoBegin_reconnects s
  | uploadResponded upload => exact uploadResponded_reconnects s upload
  | processResponded process => exact processResponded_reconnects s process
  | healthResponded health =>
    simp only [step]
    unfold healthResponded
    split
    · exact showToast_reconnects _ _ _
    · split_ifs
      · exact ⟨rfl, rfl⟩
      · exact showToast_reconnects _ _ _
  | onopen => exact ⟨rfl, rfl⟩
  | onmessage data => exact onmessage_reconnects s data
  | onerror => exact ⟨rfl, rfl⟩
  | onclose => exact absurd rfl h1
  | fireTimer i => exact absurd rfl (h2 i)
  | openVideoInNewTab popupAllowed =>
    simp only [step]
    unfold openVideoInNewTab
    simp only []
    split_ifs
    · exact ⟨rfl, rfl⟩
    · exact showToast_reconnects _ _ _
    · exact ⟨rfl, rfl⟩
  | downloadVideo =>
    simp only [step]
    unfold downloadVideo
    simp only []
    split_ifs
    · exact ⟨rfl, rfl⟩
    · exact showToast_reconnects _ _ _
  | resetApp => exact ⟨rfl, rfl⟩

theorem step_reconnects (s : AppState) (op : Op) :
    pendingReconnects (step s op) + (step s op).socketsCreated =
      pendingReconnects s + s.socketsCreated + closes [op] ∧
    s.socketsCreated ≤ (step s op).socketsCreated := by
  by_cases h1 : op = Op.onclose
  · subst h1
    simp [step, closes, onclose, pendingReconnects, List.countP_append]
    omega
  · have hc : closes [op] = 0 := by simp [closes, h1]
    by_cases h2 : ∃ i, op = Op.fireTimer i
    · obtain ⟨i, rfl⟩ := h2
      have h := fireTimer_reconnects s i
      rw [hc]
      exact ⟨h.1, h.2⟩
    · have h := step_frame_reconnects s op h1 (fun i hi => h2 ⟨i, hi⟩)
      rw [hc, h.1, h.2]
      exact ⟨rfl, le_refl _⟩

theorem run_reconnects (ops : List Op) (s : AppState) :
    pendingReconnects (run s ops) + (run s ops).socketsCreated =
      pendingReconnects s + s.socketsCreated + closes ops ∧
    s.socketsCreated ≤ (run s ops).socketsCreated := by
  induction ops generalizing s with
  | nil => simp [run, closes]
  | cons op ops ih =>
    have h1 := step_reconnects s op
    have h2 := ih (step s op)
    have h3 : closes (op :: ops) = closes [op] + closes ops := by
      simp [closes, List.countP_cons]
      omega
    simp only [run, List.foldl_cons] at h2 ⊢
    omega

/-- C10.  The close handler adds exactly one timer, `connectWebSocket` after 3000
ms, and changes nothing else; the error handler changes nothing and so
schedules nothing.  In every session each close raises the number of pending
reconnects by one, and the pending reconnects together with the reconnects
already made are exactly the closes, so the pending reconnects never exceed
the closed connections. -/
theorem reconnect_schedule :
    (∀ s : AppState,
      onclose s = { s with timers := s.timers ++ [⟨Callback.connectWebSocket, 3000⟩] } ∧
      pendingReconnects (onclose s) = pendingReconnects s + 1 ∧
      jobState (onclose s) = jobState s ∧
      (onclose s).effects = s.effects) ∧
    (∀ s : AppState, onerror s = s) ∧
    (∀ (protocol host : String) (ops : List Op),
      pendingReconnects (run (startState protocol host) ops) +
          ((run (startState protocol host) ops).socketsCreated - 1) = closes ops ∧
      pendingReconnects (run (startState protocol host) ops) ≤ closes ops ∧
      pendingReconnects (run (startState protocol host) (ops ++ [Op.onclose])) =
        pendingReconnects (run (startState protocol host) ops) + 1 ∧
      pendingReconnects (run (startState protocol host) (ops ++ [Op.onerror])) =
        pendingReconnects (run (startState protocol host) ops)) := by
  refine ⟨?_, fun s => rfl, ?_⟩
  · intro s
    refine ⟨rfl, ?_, rfl, rfl⟩
    simp [onclose, pendingReconnects, List.countP_append]
  · intro protocol host ops
    have h := run_reconnects ops (startState protocol host)
    have h0 : pendingReconnects (startState protocol host) = 0 := by
      simp [startState, domContentLoaded, connectWebSocket, initialState, pendingReconnects]
    have h1 : (startState protocol host).socketsCreated = 1 := by
      simp [startState, domContentLoaded, connectWebSocket, initialState]
    rw [h0, h1] at h
    refine ⟨by omega, by omega, ?_, ?_⟩
    · simp [run, List.foldl_append, step, onclose, pendingReconnects, List.countP_append]
    · simp [run, List.foldl_append, step, onerror]

end VehicleDetection
